import Mathlib

/-
Verification of the coordinated planning-and-operation engine
(shared-resource planning: Benders master + ADMM coordination).

Shallow embedding of the core numeric routines of
src/shared_resources_planning.py, src/shared_energy_storage_data.py and
src/network_parameters.py over the rationals.  Machine floats are modelled
as exact rationals; Python round(x, n) is modelled as round-half-to-even
at n decimal digits, and math.isclose by its documented formula.
-/

namespace SharedResourcesPlanning

/-- A pair of active and reactive components (p, q), as stored per
(node, year, day, instant) in the consensus and dual dictionaries. -/
structure PQ where
  p : ℚ
  q : ℚ
  deriving DecidableEq

/-- Python math.isclose(a, b, rel_tol, abs_tol):
abs(a-b) <= max(rel_tol * max(abs(a), abs(b)), abs_tol). -/
def iscloseQ (a b relTol absTol : ℚ) : Bool :=
  decide (|a - b| ≤ max (relTol * max |a| |b|) absTol)

/-- Round a rational to the nearest integer, ties to even
(the semantics of Python round on an exact value). -/
def roundHalfEven (x : ℚ) : ℤ :=
  if x - ⌊x⌋ < 1/2 then ⌊x⌋
  else if x - ⌊x⌋ > 1/2 then ⌊x⌋ + 1
  else if ⌊x⌋ % 2 = 0 then ⌊x⌋ else ⌊x⌋ + 1

/-- Python round(x, n) on an exact value: round-half-even at n decimal
digits. -/
def pyRound (n : ℕ) (x : ℚ) : ℚ :=
  (roundHalfEven (x * 10 ^ n) : ℚ) / 10 ^ n

/-!  ## Interface power-flow dual update
Source: _update_interface_power_flow_variables, lines 644-655.
Per (node, year, day, instant), with errors
error_p_pf = p_pf.tso - p_pf.dso and error_q_pf = q_pf.tso - q_pf.dso,
the code increments only dual_vars[tso][...][q] on the TSO side, and
both components on the DSO side with the negated errors. -/

def updatePfDuals (rhoTso rhoDso : ℚ) (pfTso pfDso dTso dDso : PQ) : PQ × PQ :=
  let errorPpf := pfTso.p - pfDso.p
  let errorQpf := pfTso.q - pfDso.q
  let dTso := { dTso with q := dTso.q + rhoTso * errorQpf }
  let dDso := { dDso with p := dDso.p + rhoDso * (-errorPpf) }
  let dDso := { dDso with q := dDso.q + rhoDso * (-errorQpf) }
  (dTso, dDso)

/-!  ## Shared-ESS dual update
Source: _update_shared_energy_storage_variables, lines 829-840.
Both components of the TSO and DSO ESS duals are incremented. -/

def updateEssDuals (rhoTso rhoDso : ℚ) (essTso essDso dTso dDso : PQ) : PQ × PQ :=
  let errorPTransm := essTso.p - essDso.p
  let errorQTransm := essTso.q - essDso.q
  let errorPDistr := essDso.p - essTso.p
  let errorQDistr := essDso.q - essTso.q
  let dTso := { dTso with p := dTso.p + rhoTso * errorPTransm }
  let dTso := { dTso with q := dTso.q + rhoTso * errorQTransm }
  let dDso := { dDso with p := dDso.p + rhoDso * errorPDistr }
  let dDso := { dDso with q := dDso.q + rhoDso * errorQDistr }
  (dTso, dDso)

/-!  ## Master problem: rated capacity from yearly investments
Source: _build_master_problem, lines 235-251.  For each investment year y
the code computes tcal_norm = round(t_cal / num_years) and adds the
investment of year y to the accumulated capacity of every year index x in
range(y, min(y + tcal_norm, len(years))); the constraint then pins
es_s_rated[e, y] to the accumulated value. -/

/-- tcal_norm = round(t_cal / num_years) (Python round, ties to even). -/
def tcalNorm (tCal numYears : ℚ) : ℤ :=
  roundHalfEven (tCal / numYears)

/-- The accumulation loop building total_s_capacity_per_year (and
identically total_e_capacity_per_year): starting from the all-zero list,
for y in range(numYears) add inv y to every index x in
range(y, min(y + tcal_norm, numYears)). -/
def totalCapacityPerYear (numYears : ℕ) (tCal w inv : ℕ → ℚ) : ℕ → ℚ :=
  (List.range numYears).foldl
    (fun acc (y : ℕ) => fun (x : ℕ) =>
      if ((y : ℤ) ≤ (x : ℤ) ∧ (x : ℤ) < min ((y : ℤ) + tcalNorm (tCal y) (w y)) (numYears : ℤ))
      then acc x + inv y else acc x)
    (fun _ => 0)

/-- Modelled from the spec wording of the claim: the calendar-life window
of an investment made in year y is the next ceil(t_cal / w_y) year indices
starting at y, truncated at the horizon end; the rated capacity at x is
the sum of investments whose window contains x. -/
def specRatedCapacity (numYears : ℕ) (tCal w inv : ℕ → ℚ) (x : ℕ) : ℚ :=
  ((List.range numYears).map
    (fun (y : ℕ) =>
      if ((y : ℤ) ≤ (x : ℤ) ∧ (x : ℤ) < min ((y : ℤ) + ⌈tCal y / w y⌉) (numYears : ℤ))
      then inv y else 0)).sum

/-!  ## Benders loop
Source: _run_planning_problem, lines 129-176.  Starting from iter = 1,
LB = -budget*1e3, UB = +budget*1e3, the loop runs while
iter < num_max_iters: it obtains UB from the subproblem, declares
convergence when math.isclose(UB, LB, abs_tol=tol_abs, rel_tol=tol_rel),
and otherwise increments iter and refreshes LB from the master solve.
The subproblem and master values are abstracted as oracles indexed by the
iteration counter. -/

structure BendersResult where
  converged : Bool
  iter : ℕ
  lb : ℚ
  ub : ℚ
  deriving DecidableEq

def bendersLoopAux (tolAbs tolRel : ℚ) (ubOracle lbOracle : ℕ → ℚ) :
    ℕ → ℕ → ℚ → ℚ → BendersResult
  | 0, iter, lb, ub => ⟨false, iter, lb, ub⟩
  | fuel + 1, iter, lb, _ =>
      let ub := ubOracle iter
      if iscloseQ ub lb tolRel tolAbs then ⟨true, iter, lb, ub⟩
      else bendersLoopAux tolAbs tolRel ubOracle lbOracle fuel (iter + 1) (lbOracle (iter + 1)) ub

/-- The outer Benders loop: at most num_max_iters - 1 subproblem solves
(the while-condition is iter < num_max_iters with iter starting at 1). -/
def bendersRun (numMaxIters : ℕ) (tolAbs tolRel budget : ℚ)
    (ubOracle lbOracle : ℕ → ℚ) : BendersResult :=
  bendersLoopAux tolAbs tolRel ubOracle lbOracle (numMaxIters - 1) 1
    (-budget * 1000) (budget * 1000)

/-- Modelled from the spec wording of the claim: convergence when
the absolute gap is within tol_abs or the relative gap |UB-LB|/|LB| is
within tol_rel. -/
def specBendersStop (ub lb tolAbs tolRel : ℚ) : Prop :=
  |ub - lb| ≤ tolAbs ∨ |ub - lb| / |lb| ≤ tolRel

/-!  ## ADMM convergence checks
Source: _check_admm_convergence (lines 1074-1078), _consensus_convergence
(lines 1081-1117) and _stationary_convergence (lines 1120-1164).
The nested loops over (node, year, day, instant) are flattened into a
list idxs of abstract indices; every consensus quantity is a function of
the index.  The module-level constants ERROR_PRECISION (the rounding
digit count) and ADMM_CONVERGENCE_REL_TOL are imported by the source from
a module outside the repository slice, so they appear here as the
parameters prec and relTol. -/

structure AdmmState (ι : Type) where
  pfTsoP : ι → ℚ
  pfTsoQ : ι → ℚ
  pfDsoP : ι → ℚ
  pfDsoQ : ι → ℚ
  essTsoP : ι → ℚ
  essTsoQ : ι → ℚ
  essDsoP : ι → ℚ
  essDsoQ : ι → ℚ

/-- The accumulated absolute consensus mismatch of _consensus_convergence:
per index, both orientations of the TSO/DSO differences of rounded values,
for interface PF and for the shared ESS. -/
def consensusSumAbs {ι : Type} (prec : ℕ) (idxs : List ι) (s : AdmmState ι) : ℚ :=
  (idxs.map (fun i =>
    |pyRound prec (s.pfTsoP i) - pyRound prec (s.pfDsoP i)|
      + |pyRound prec (s.pfTsoQ i) - pyRound prec (s.pfDsoQ i)|
      + |pyRound prec (s.pfDsoP i) - pyRound prec (s.pfTsoP i)|
      + |pyRound prec (s.pfDsoQ i) - pyRound prec (s.pfTsoQ i)|
      + (|pyRound prec (s.essTsoP i) - pyRound prec (s.essDsoP i)|
      + |pyRound prec (s.essTsoQ i) - pyRound prec (s.essDsoQ i)|
      + |pyRound prec (s.essDsoP i) - pyRound prec (s.essTsoP i)|
      + |pyRound prec (s.essDsoQ i) - pyRound prec (s.essTsoQ i)|))).sum

/-- num_elems of _consensus_convergence: 4 PF addends and 4 ESS addends
per (node, year, day, instant). -/
def consensusNumElems {ι : Type} (idxs : List ι) : ℕ := 8 * idxs.length

/-- _consensus_convergence: fails only when the accumulated mismatch
exceeds tol * num_elems and is not isclose to it. -/
def consensusConverged {ι : Type} (prec : ℕ) (relTol tol : ℚ)
    (idxs : List ι) (s : AdmmState ι) : Bool :=
  if consensusSumAbs prec idxs s > tol * (consensusNumElems idxs : ℚ) then
    (if iscloseQ (consensusSumAbs prec idxs s) (tol * (consensusNumElems idxs : ℚ)) relTol tol
     then true else false)
  else true

/-- The accumulated stationary mismatch of _stationary_convergence:
rho-weighted absolute differences between the current and the
previous-iteration values, per role. -/
def stationarySumAbs {ι : Type} (prec : ℕ) (idxs : List ι)
    (rhoPfTso rhoEssTso : ℚ) (rhoPfDso rhoEssDso : ι → ℚ)
    (cur prev : AdmmState ι) : ℚ :=
  (idxs.map (fun i =>
    rhoPfTso * |pyRound prec (cur.pfTsoP i) - pyRound prec (prev.pfTsoP i)|
      + rhoPfTso * |pyRound prec (cur.pfTsoQ i) - pyRound prec (prev.pfTsoQ i)|
      + rhoPfDso i * |pyRound prec (cur.pfDsoP i) - pyRound prec (prev.pfDsoP i)|
      + rhoPfDso i * |pyRound prec (cur.pfDsoQ i) - pyRound prec (prev.pfDsoQ i)|
      + (rhoEssTso * |pyRound prec (cur.essTsoP i) - pyRound prec (prev.essTsoP i)|
      + rhoEssTso * |pyRound prec (cur.essTsoQ i) - pyRound prec (prev.essTsoQ i)|
      + rhoEssDso i * |pyRound prec (cur.essDsoP i) - pyRound prec (prev.essDsoP i)|
      + rhoEssDso i * |pyRound prec (cur.essDsoQ i) - pyRound prec (prev.essDsoQ i)|))).sum

/-- num_elems of _stationary_convergence. -/
def stationaryNumElems {ι : Type} (idxs : List ι) : ℕ := 8 * idxs.length

/-- _stationary_convergence: same acceptance structure as the consensus
test, on the rho-weighted stationary mismatch. -/
def stationaryConverged {ι : Type} (prec : ℕ) (relTol tol : ℚ)
    (idxs : List ι) (rhoPfTso rhoEssTso : ℚ) (rhoPfDso rhoEssDso : ι → ℚ)
    (cur prev : AdmmState ι) : Bool :=
  if stationarySumAbs prec idxs rhoPfTso rhoEssTso rhoPfDso rhoEssDso cur prev
      > tol * (stationaryNumElems idxs : ℚ) then
    (if iscloseQ (stationarySumAbs prec idxs rhoPfTso rhoEssTso rhoPfDso rhoEssDso cur prev)
        (tol * (stationaryNumElems idxs : ℚ)) relTol tol
     then true else false)
  else true

/-- _check_admm_convergence: true only when both tests pass. -/
def checkAdmmConvergence {ι : Type} (prec : ℕ) (relTol tol : ℚ)
    (idxs : List ι) (rhoPfTso rhoEssTso : ℚ) (rhoPfDso rhoEssDso : ι → ℚ)
    (cur prev : AdmmState ι) : Bool :=
  if consensusConverged prec relTol tol idxs cur then
    (if stationaryConverged prec relTol tol idxs rhoPfTso rhoEssTso rhoPfDso rhoEssDso cur prev
     then true else false)
  else false

/-- Concrete ADMM state for one node, year and day with two instants:
a single PF active-power mismatch of 5 at the first instant.  Used to
evaluate the convergence check at an explicit input. -/
def admmCexState : AdmmState (Fin 2) :=
  { pfTsoP := fun i => if i = 0 then 5 else 0
    pfTsoQ := fun _ => 0
    pfDsoP := fun _ => 0
    pfDsoQ := fun _ => 0
    essTsoP := fun _ => 0
    essTsoQ := fun _ => 0
    essDsoP := fun _ => 0
    essDsoQ := fun _ => 0 }

/-- All-zero ADMM state on a single index, used as a trivially
converged configuration. -/
def admmZeroState : AdmmState Unit :=
  { pfTsoP := fun _ => 0
    pfTsoQ := fun _ => 0
    pfDsoP := fun _ => 0
    pfDsoQ := fun _ => 0
    essTsoP := fun _ => 0
    essTsoQ := fun _ => 0
    essDsoP := fun _ => 0
    essDsoQ := fun _ => 0 }

/-!  ## Adaptive penalty update
Source: update_transmission_coordination_model_and_solve (lines 852-860)
and identically update_distribution_coordination_models_and_solve
(lines 1023-1030).  The per-(year, day) penalties are reset to the
configured constants, unless adaptive_penalty is set, in which case BOTH
new values are derived from the current rho_pf value.
ADMM_ADAPTIVE_PENALTY_FACTOR is a module-level constant imported from
outside the repository slice; it appears as the parameter gammaRho. -/

def rhoUpdate (adaptive : Bool) (gammaRho rhoPfParam rhoEssParam rhoPfCur rhoEssCur : ℚ) :
    ℚ × ℚ :=
  let rhoPf := rhoPfParam
  let rhoEss := rhoEssParam
  if adaptive then (rhoPfCur * (1 + gammaRho), rhoPfCur * (1 + gammaRho))
  else (rhoPf, rhoEss)

/-- Modelled from the claim wording: both penalties multiplied by
(1 + gamma) with respect to their own previous values. -/
def specRhoUpdate (gammaRho rhoPfCur rhoEssCur : ℚ) : ℚ × ℚ :=
  (rhoPfCur * (1 + gammaRho), rhoEssCur * (1 + gammaRho))

/-!  ## ADMM objective normalizations
Source: update_transmission_model_to_admm (lines 716-783) and
update_distribution_models_to_admm (lines 927-1003).  The embedded
functions are the denominators of the objective normalization and of the
consensus residuals. -/

/-- TSO objective normalization, line 757: obj / abs(init_of_value). -/
def tsoObjNormDenom (initOfValue : ℚ) : ℚ := |initOfValue|

/-- Interface PF residual normalization, lines 763-764 (TSO) and 987-988
(DSO): division by abs(init_p) of the initial interface power. -/
def pfResidualDenom (initPf : ℚ) : ℚ := |initPf|

/-- DSO initial objective value, lines 939-943: replaced by 1.0 when the
local shared-ESS rating is zero. -/
def dsoInitOfValue (rating initOfValue : ℚ) : ℚ :=
  if rating = 0 then 1 else initOfValue

/-- DSO objective normalization, line 980: obj / max(abs(init_of_value), 1.0). -/
def dsoObjNormDenom (rating initOfValue : ℚ) : ℚ :=
  max |dsoInitOfValue rating initOfValue| 1

/-- Shared-ESS rating used in the residual denominators, lines 771-773 and
940-942: replaced by 1.0 when zero. -/
def essRatingUsed (rating : ℚ) : ℚ :=
  if rating = 0 then 1 else rating

/-- Shared-ESS residual denominator, lines 775-776 and 996-997: 2 * rating. -/
def essResidualDenom (rating : ℚ) : ℚ := 2 * essRatingUsed rating

/-- Modelled from the spec wording of the claim: the safeguarded
normalization max(abs(reference), 1.0). -/
def specSafeguardDenom (ref : ℚ) : ℚ := max |ref| 1

/-!  ## ADMM iteration event order
Source: _run_operational_planning_problem, lines 333-382, and
_update_admm_consensus_variables, lines 594-597.  The control flow of one
iteration of the ADMM main cycle is modelled as the list of its
coordination events in program order.  The convergence evaluation after
the TSO step runs only when iter > 1, hence the flag. -/

inductive AdmmEvent where
  | snapshot
  | solveTso
  | solveDso
  | pullPf
  | dualPfUpdate
  | pullEss
  | dualEssUpdate
  | convergenceCheck
  deriving DecidableEq, BEq

/-- Event order of _update_admm_consensus_variables: it first copies the
current consensus values into the previous-iteration storage, then pulls
the interface PF values and updates the PF duals, then pulls the
shared-ESS values and updates the ESS duals. -/
def updateAdmmConsensusEvents : List AdmmEvent :=
  [AdmmEvent.snapshot, AdmmEvent.pullPf, AdmmEvent.dualPfUpdate,
   AdmmEvent.pullEss, AdmmEvent.dualEssUpdate]

/-- Event order of one iteration of the ADMM main cycle, lines 334-376:
TSO solve, consensus update, convergence evaluation (only when iter > 1),
DSO solves, consensus update, convergence evaluation. -/
def admmIterationEvents (checkAfterTso : Bool) : List AdmmEvent :=
  [AdmmEvent.solveTso] ++ updateAdmmConsensusEvents
    ++ (if checkAfterTso then [AdmmEvent.convergenceCheck] else [])
    ++ [AdmmEvent.solveDso] ++ updateAdmmConsensusEvents
    ++ [AdmmEvent.convergenceCheck]

/-!  ## Benders cut
Source: _add_benders_cut, lines 190-204.  benders_cut starts from
upper_bound; for each storage e and year y the day-weighted sensitivities
are accumulated over the representative days and multiply the deviation of
the rated-capacity variables from the candidate solution.  The appended
constraint is alpha >= benders_cut; here the right-hand side is evaluated
as a function of the values taken by es_s_rated and es_e_rated. -/

/-- Day-weighted sensitivity: for each representative day, add
sens * (w_d / 365).  The per-day sensitivity read by the code depends
only on (year, node), so sens is a scalar here. -/
def daySensitivity (sens : ℚ) (dayWeights : List ℚ) : ℚ :=
  dayWeights.foldl (fun acc w => acc + sens * (w / 365)) 0

/-- The value of the right-hand side of the appended Benders cut when the
variables es_s_rated and es_e_rated take the values sRated and eRated. -/
def bendersCutRhs (upperBound : ℚ) (numStorages numYears : ℕ)
    (sensS sensE : ℕ → ℕ → ℚ) (dayWeights : List ℚ)
    (sHat eHat sRated eRated : ℕ → ℕ → ℚ) : ℚ :=
  upperBound +
    ((List.range numStorages).map (fun e =>
      ((List.range numYears).map (fun y =>
        daySensitivity (sensS e y) dayWeights * (sRated e y - sHat e y)
          + daySensitivity (sensE e y) dayWeights * (eRated e y - eHat e y))).sum)).sum

/-!  ## Candidate solutions
Source: _get_initial_candidate_solution (shared_resources_planning.py,
lines 3905-3918) and SharedEnergyStorageData.get_candidate_solution
(shared_energy_storage_data.py, lines 45-60).  Candidates map a site and
a year to yearly investments and total capacities; the extraction from a
solved master problem takes the absolute value of every solver value. -/

structure CandidateSolution where
  investmentS : ℕ → ℕ → ℚ
  investmentE : ℕ → ℕ → ℚ
  totalCapacityS : ℕ → ℕ → ℚ
  totalCapacityE : ℕ → ℕ → ℚ

/-- _get_initial_candidate_solution: all investments and capacities 0.0. -/
def getInitialCandidateSolution : CandidateSolution :=
  { investmentS := fun _ _ => 0
    investmentE := fun _ _ => 0
    totalCapacityS := fun _ _ => 0
    totalCapacityE := fun _ _ => 0 }

/-- get_candidate_solution: reads the solver values of es_s_invesment,
es_e_invesment, es_s_rated, es_e_rated and stores their absolute values. -/
def getCandidateSolution (rawInvS rawInvE rawRatedS rawRatedE : ℕ → ℕ → ℚ) :
    CandidateSolution :=
  { investmentS := fun e y => |rawInvS e y|
    investmentE := fun e y => |rawInvE e y|
    totalCapacityS := fun e y => |rawRatedS e y|
    totalCapacityE := fun e y => |rawRatedE e y| }

/-!  ## Network parameters
Source: network_parameters.py.  The parsed JSON parameter file is
modelled as a record of the fields the reader accesses; the reader fails
(the source exits with ERROR_PARAMS_FILE) on an unknown objective type,
and otherwise copies the fields and finally overrides ess_relax and
fl_relax when relaxed_model is set. -/

inductive ObjType where
  | minCost
  | congestionManagement
  deriving DecidableEq

structure NetworkParameters where
  objType : ObjType
  transfReg : Bool
  esReg : Bool
  flReg : Bool
  rgCurt : Bool
  lCurt : Bool
  relaxedModel : Bool
  essRelax : Bool
  flRelax : Bool
  enforceVg : Bool
  slackLineLimits : Bool
  slackVoltageLimits : Bool
  printToScreen : Bool
  plotDiagram : Bool
  printResultsToFile : Bool
  deriving DecidableEq

structure NetworkParamsData where
  objType : String
  transfReg : Bool
  esReg : Bool
  flReg : Bool
  rgCurt : Bool
  lCurt : Bool
  relaxedModel : Bool
  essRelax : Bool
  flRelax : Bool
  enforceVg : Bool
  slackLineLimits : Bool
  slackVoltageLimits : Bool
  printToScreen : Bool
  plotDiagram : Bool
  printResultsToFile : Bool
  deriving DecidableEq

/-- _read_network_parameters_from_file, lines 33-61. -/
def readNetworkParametersFromFile (d : NetworkParamsData) :
    Except Unit NetworkParameters :=
  let objTypeOpt : Option ObjType :=
    if d.objType = "COST" then some ObjType.minCost
    else if d.objType = "CONGESTION_MANAGEMENT" then some ObjType.congestionManagement
    else none
  match objTypeOpt with
  | none => Except.error ()
  | some o =>
      let ps : NetworkParameters :=
        { objType := o
          transfReg := d.transfReg
          esReg := d.esReg
          flReg := d.flReg
          rgCurt := d.rgCurt
          lCurt := d.lCurt
          relaxedModel := d.relaxedModel
          essRelax := d.essRelax
          flRelax := d.flRelax
          enforceVg := d.enforceVg
          slackLineLimits := d.slackLineLimits
          slackVoltageLimits := d.slackVoltageLimits
          printToScreen := d.printToScreen
          plotDiagram := d.plotDiagram
          printResultsToFile := d.printResultsToFile }
      let ps := if ps.relaxedModel then { ps with essRelax := true, flRelax := true } else ps
      Except.ok ps

/-- A concrete parameter file with relaxed_model set and both relaxation
flags off in the file. -/
def claim10Data : NetworkParamsData :=
  { objType := "COST"
    transfReg := true
    esReg := true
    flReg := true
    rgCurt := false
    lCurt := false
    relaxedModel := true
    essRelax := false
    flRelax := false
    enforceVg := false
    slackLineLimits := false
    slackVoltageLimits := false
    printToScreen := false
    plotDiagram := false
    printResultsToFile := false }

/-- The parameters resulting from reading claim10Data. -/
def claim10Params : NetworkParameters :=
  { objType := ObjType.minCost
    transfReg := true
    esReg := true
    flReg := true
    rgCurt := false
    lCurt := false
    relaxedModel := true
    essRelax := true
    flRelax := true
    enforceVg := false
    slackLineLimits := false
    slackVoltageLimits := false
    printToScreen := false
    plotDiagram := false
    printResultsToFile := false }

end SharedResourcesPlanning

open SharedResourcesPlanning

/-- C1 counterexample: the claim asserts that after the TSO solve the
TSO interface power-flow dual is incremented in BOTH components, i.e.
lambda_pf.tso.p += rho_pf_tso * (p_pf.tso - p_pf.dso).  At
rho = 1, pfTso = (1,1), pfDso = (0,0) and zero duals, the claimed value of
the p component would be 1, but the code leaves it at 0. -/
theorem claim1_counterexample :
    (updatePfDuals 1 1 ⟨1, 1⟩ ⟨0, 0⟩ ⟨0, 0⟩ ⟨0, 0⟩).1.p = 0 ∧
    ((0 : ℚ) + 1 * ((1 : ℚ) - 0) ≠ 0) := by
  constructor
  · rfl
  · norm_num

/-- C1 (amended): after the TSO solve, the TSO interface power-flow dual is
updated only in its q component, by rho_pf_tso * (q_pf.tso - q_pf.dso); its
p component is left unchanged.  The DSO interface duals receive both
components with negated errors, and the TSO shared-ESS duals receive the
analogous increments in both p and q. -/
theorem claim1_tso_dual_updates (rhoTso rhoDso : ℚ) (pfTso pfDso dTso dDso : PQ)
    (essTso essDso eTso eDso : PQ) :
    (updatePfDuals rhoTso rhoDso pfTso pfDso dTso dDso).1.p = dTso.p ∧
    (updatePfDuals rhoTso rhoDso pfTso pfDso dTso dDso).1.q
      = dTso.q + rhoTso * (pfTso.q - pfDso.q) ∧
    (updatePfDuals rhoTso rhoDso pfTso pfDso dTso dDso).2.p
      = dDso.p + rhoDso * (-(pfTso.p - pfDso.p)) ∧
    (updatePfDuals rhoTso rhoDso pfTso pfDso dTso dDso).2.q
      = dDso.q + rhoDso * (-(pfTso.q - pfDso.q)) ∧
    (updateEssDuals rhoTso rhoDso essTso essDso eTso eDso).1.p
      = eTso.p + rhoTso * (essTso.p - essDso.p) ∧
    (updateEssDuals rhoTso rhoDso essTso essDso eTso eDso).1.q
      = eTso.q + rhoTso * (essTso.q - essDso.q) ∧
    (updateEssDuals rhoTso rhoDso essTso essDso eTso eDso).2.p
      = eDso.p + rhoDso * (essDso.p - essTso.p) ∧
    (updateEssDuals rhoTso rhoDso essTso essDso eTso eDso).2.q
      = eDso.q + rhoDso * (essDso.q - essTso.q) := by
  refine ⟨rfl, rfl, rfl, rfl, rfl, rfl, rfl, rfl⟩

/-- Applying the function-valued accumulation fold at a fixed index x
turns it into a scalar fold. -/
lemma foldl_capacity_apply (l : List ℕ) (c : ℕ → ℕ → Prop) [∀ y x, Decidable (c y x)]
    (g : ℕ → ℚ) (acc : ℕ → ℚ) (x : ℕ) :
    (l.foldl (fun a y => fun t => if c y t then a t + g y else a t) acc) x
      = l.foldl (fun a y => if c y x then a + g y else a) (acc x) := by
  induction l generalizing acc with
  | nil => rfl
  | cons y ys ih =>
      rw [List.foldl_cons, List.foldl_cons, ih]

/-- A scalar fold that conditionally accumulates equals the starting value
plus the sum of the conditional contributions. -/
lemma foldl_ite_add_eq_sum (l : List ℕ) (cnd : ℕ → Prop) [DecidablePred cnd]
    (g : ℕ → ℚ) (a : ℚ) :
    l.foldl (fun acc y => if cnd y then acc + g y else acc) a
      = a + (l.map (fun y => if cnd y then g y else 0)).sum := by
  induction l generalizing a with
  | nil => simp
  | cons y ys ih =>
      rw [List.foldl_cons, List.map_cons, List.sum_cons, ih]
      by_cases h : cnd y
      · simp only [h, if_true]
        ring
      · simp [h]

/-- C2 counterexample: the claim states the calendar-life window has
length ceil(t_cal / w_y).  With a 2-year horizon, t_cal = 5 and w_y = 4,
an investment of 1 in year 0 would then cover year indices 0 and 1
(ceil(5/4) = 2), so s_rated at index 1 would be 1; the code instead uses
round(5/4) = 1, so its accumulated capacity at index 1 is 0. -/
theorem claim2_counterexample :
    totalCapacityPerYear 2 (fun _ => 5) (fun _ => 4) (fun y => if y = 0 then 1 else 0) 1 = 0 ∧
    specRatedCapacity 2 (fun _ => 5) (fun _ => 4) (fun y => if y = 0 then 1 else 0) 1 = 1 ∧
    ((0 : ℚ) ≠ 1) := by
  refine ⟨?_, ?_, by norm_num⟩
  · norm_num [totalCapacityPerYear, tcalNorm, roundHalfEven, List.range_succ, Int.floor_eq_iff]
  · have hc : (⌈(5 : ℚ) / 4⌉ : ℤ) = 2 := by
      rw [Int.ceil_eq_iff]
      norm_num
    norm_num [specRatedCapacity, List.range_succ, hc]

/-- C2 (amended): in the master problem, for every site and year index x,
the accumulated rated capacity (to which s_rated[e, x] and e_rated[e, x]
are constrained equal) is the sum of the yearly investments inv y over
all years y whose calendar-life window contains x, where the window of an
investment made in year y is the next round(t_cal / w_y) year indices
starting at y (Python round, ties to even) truncated at the horizon end
-- round, not ceil as the claim states. -/
theorem claim2_rated_capacity_accounting (numYears : ℕ) (tCal w inv : ℕ → ℚ) (x : ℕ) :
    totalCapacityPerYear numYears tCal w inv x
      = ((List.range numYears).map
          (fun (y : ℕ) =>
            if ((y : ℤ) ≤ (x : ℤ) ∧ (x : ℤ) < min ((y : ℤ) + tcalNorm (tCal y) (w y)) (numYears : ℤ))
            then inv y else 0)).sum := by
  unfold totalCapacityPerYear
  rw [foldl_capacity_apply
        (c := fun (y t : ℕ) =>
          (y : ℤ) ≤ (t : ℤ) ∧ (t : ℤ) < min ((y : ℤ) + tcalNorm (tCal y) (w y)) (numYears : ℤ)),
      foldl_ite_add_eq_sum, zero_add]

/-- If the Benders loop declares convergence, the final upper and lower
bounds satisfy the math.isclose test. -/
lemma bendersLoopAux_converged_isclose (tolAbs tolRel : ℚ) (ubO lbO : ℕ → ℚ) :
    ∀ (fuel iter : ℕ) (lb ub : ℚ),
      (bendersLoopAux tolAbs tolRel ubO lbO fuel iter lb ub).converged = true →
      iscloseQ (bendersLoopAux tolAbs tolRel ubO lbO fuel iter lb ub).ub
        (bendersLoopAux tolAbs tolRel ubO lbO fuel iter lb ub).lb tolRel tolAbs = true := by
  intro fuel
  induction fuel with
  | zero =>
      intro iter lb ub h
      simp [bendersLoopAux] at h
  | succ n ih =>
      intro iter lb ub h
      rw [bendersLoopAux] at h ⊢
      by_cases hc : iscloseQ (ubO iter) lb tolRel tolAbs = true
      · simp only [hc, if_true]
      · simp only [hc, if_false] at h ⊢
        exact ih (iter + 1) (lbO (iter + 1)) (ubO iter) h

/-- C3 counterexample: with budget = 1/1000 (so LB starts at -1),
tol_abs = 0, tol_rel = 3/4 and a subproblem returning UB = -4, the code
declares convergence at the first iteration (math.isclose uses
max(|UB|, |LB|) in the relative test: |-4 - (-1)| = 3 <= (3/4)*4), while
the claimed stopping condition fails: 3 > 0 and 3/|-1| = 3 > 3/4. -/
theorem claim3_counterexample :
    (bendersRun 10 0 (3/4) (1/1000) (fun _ => -4) (fun _ => 0)).converged = true ∧
    (bendersRun 10 0 (3/4) (1/1000) (fun _ => -4) (fun _ => 0)).ub = -4 ∧
    (bendersRun 10 0 (3/4) (1/1000) (fun _ => -4) (fun _ => 0)).lb = -1 ∧
    ¬ specBendersStop (-4) (-1) 0 (3/4) := by
  refine ⟨?_, ?_, ?_, ?_⟩
  · norm_num [bendersRun, bendersLoopAux, iscloseQ]
  · norm_num [bendersRun, bendersLoopAux, iscloseQ]
  · norm_num [bendersRun, bendersLoopAux, iscloseQ]
  · norm_num [specBendersStop]

/-- C3 (amended): the outer Benders loop declares convergence exactly via
Python math.isclose on the current bounds, i.e. when
|UB - LB| <= max(tol_rel * max(|UB|, |LB|), tol_abs); whenever it declares
convergence the returned bounds satisfy this condition (otherwise it stops
only at the iteration cap).  The relative test uses max(|UB|, |LB|), not
|LB| as the claim states. -/
theorem claim3_stopping_condition (numMaxIters : ℕ) (tolAbs tolRel budget : ℚ)
    (ubO lbO : ℕ → ℚ)
    (h : (bendersRun numMaxIters tolAbs tolRel budget ubO lbO).converged = true) :
    iscloseQ (bendersRun numMaxIters tolAbs tolRel budget ubO lbO).ub
      (bendersRun numMaxIters tolAbs tolRel budget ubO lbO).lb tolRel tolAbs = true := by
  exact bendersLoopAux_converged_isclose tolAbs tolRel ubO lbO _ _ _ _ h

/-- C3 witness: a concrete run that converges, on which the amended
stopping condition evaluates. -/
theorem claim3_witness :
    (bendersRun 2 1 0 0 (fun _ => 0) (fun _ => 0)).converged = true ∧
    iscloseQ (bendersRun 2 1 0 0 (fun _ => 0) (fun _ => 0)).ub
      (bendersRun 2 1 0 0 (fun _ => 0) (fun _ => 0)).lb 0 1 = true :=
  ⟨by norm_num [bendersRun, bendersLoopAux, iscloseQ],
   claim3_stopping_condition 2 1 0 0 (fun _ => 0) (fun _ => 0)
     (by norm_num [bendersRun, bendersLoopAux, iscloseQ])⟩

/-- An acceptance test of the shape used by both ADMM convergence checks
(fail only when the sum exceeds the bound and is not isclose to it)
implies the aggregate bound or the isclose escape. -/
lemma admmAcceptance_sound (sumAbs bound relTol tol : ℚ)
    (h : (if sumAbs > bound then
            (if iscloseQ sumAbs bound relTol tol then true else false)
          else true) = true) :
    sumAbs ≤ bound ∨ iscloseQ sumAbs bound relTol tol = true := by
  by_cases h1 : sumAbs > bound
  · rw [if_pos h1] at h
    by_cases h2 : iscloseQ sumAbs bound relTol tol = true
    · exact Or.inr h2
    · rw [Bool.not_eq_true] at h2
      rw [h2] at h
      simp at h
  · exact Or.inl (not_lt.mp h1)

/-- C4 counterexample: one node, one year, one day, two instants, with a
single interface active-power mismatch of 5 and tol = 1.  The consensus
test averages over 16 addends (10 <= 16), so _check_admm_convergence
returns True, yet the claimed pointwise bound |p_pf.tso - p_pf.dso| +
|q_pf.tso - q_pf.dso| <= tol fails at the first instant (5 > 1). -/
theorem claim4_counterexample :
    checkAdmmConvergence 0 (1/1000000) 1 [(0 : Fin 2), 1] 1 1 (fun _ => 1) (fun _ => 1)
      admmCexState admmCexState = true ∧
    ¬(|admmCexState.pfTsoP 0 - admmCexState.pfDsoP 0|
        + |admmCexState.pfTsoQ 0 - admmCexState.pfDsoQ 0| ≤ 1) := by
  constructor
  · norm_num [checkAdmmConvergence, consensusConverged, stationaryConverged,
      consensusSumAbs, stationarySumAbs, consensusNumElems, stationaryNumElems,
      iscloseQ, pyRound, roundHalfEven, admmCexState]
  · norm_num [admmCexState]

/-- C4 (amended): whenever _check_admm_convergence returns True, the
aggregate consensus residual sum over all (node, year, day, instant)
addends is at most tol times the number of addends (or isclose to that
bound within the module tolerance), and likewise the rho-weighted
stationary sum; the pointwise per-index bound claimed by the spec need
not hold. -/
theorem claim4_convergence_aggregate {ι : Type} (prec : ℕ) (relTol tol : ℚ)
    (idxs : List ι) (rhoPfTso rhoEssTso : ℚ) (rhoPfDso rhoEssDso : ι → ℚ)
    (cur prev : AdmmState ι)
    (h : checkAdmmConvergence prec relTol tol idxs rhoPfTso rhoEssTso rhoPfDso rhoEssDso
          cur prev = true) :
    (consensusSumAbs prec idxs cur ≤ tol * (consensusNumElems idxs : ℚ) ∨
      iscloseQ (consensusSumAbs prec idxs cur) (tol * (consensusNumElems idxs : ℚ))
        relTol tol = true) ∧
    (stationarySumAbs prec idxs rhoPfTso rhoEssTso rhoPfDso rhoEssDso cur prev
        ≤ tol * (stationaryNumElems idxs : ℚ) ∨
      iscloseQ (stationarySumAbs prec idxs rhoPfTso rhoEssTso rhoPfDso rhoEssDso cur prev)
        (tol * (stationaryNumElems idxs : ℚ)) relTol tol = true) := by
  have hcc : consensusConverged prec relTol tol idxs cur = true := by
    by_contra hne
    rw [Bool.not_eq_true] at hne
    unfold checkAdmmConvergence at h
    rw [hne] at h
    simp at h
  have hsc : stationaryConverged prec relTol tol idxs rhoPfTso rhoEssTso rhoPfDso rhoEssDso
      cur prev = true := by
    by_contra hne
    rw [Bool.not_eq_true] at hne
    unfold checkAdmmConvergence at h
    rw [if_pos hcc, hne] at h
    simp at h
  unfold consensusConverged at hcc
  unfold stationaryConverged at hsc
  exact ⟨admmAcceptance_sound _ _ _ _ hcc, admmAcceptance_sound _ _ _ _ hsc⟩

/-- C4 witness: a trivially converged all-zero configuration on which the
aggregate bounds evaluate. -/
theorem claim4_witness :
    checkAdmmConvergence 0 (1/100) 1 [()] 1 1 (fun _ => 1) (fun _ => 1)
      admmZeroState admmZeroState = true ∧
    ((consensusSumAbs 0 [()] admmZeroState ≤ 1 * (consensusNumElems [()] : ℚ) ∨
      iscloseQ (consensusSumAbs 0 [()] admmZeroState) (1 * (consensusNumElems [()] : ℚ))
        (1/100) 1 = true) ∧
    (stationarySumAbs 0 [()] 1 1 (fun _ => 1) (fun _ => 1) admmZeroState admmZeroState
        ≤ 1 * (stationaryNumElems [()] : ℚ) ∨
      iscloseQ (stationarySumAbs 0 [()] 1 1 (fun _ => 1) (fun _ => 1) admmZeroState admmZeroState)
        (1 * (stationaryNumElems [()] : ℚ)) (1/100) 1 = true)) :=
  ⟨by norm_num [checkAdmmConvergence, consensusConverged, stationaryConverged,
      consensusSumAbs, stationarySumAbs, consensusNumElems, stationaryNumElems,
      iscloseQ, pyRound, roundHalfEven, admmZeroState],
   claim4_convergence_aggregate 0 (1/100) 1 [()] 1 1 (fun _ => 1) (fun _ => 1)
     admmZeroState admmZeroState
     (by norm_num [checkAdmmConvergence, consensusConverged, stationaryConverged,
        consensusSumAbs, stationarySumAbs, consensusNumElems, stationaryNumElems,
        iscloseQ, pyRound, roundHalfEven, admmZeroState])⟩

/-- C5 counterexample: with adaptive penalty on, current rho_pf = 1,
current rho_ess = 10 and factor 1/10, the code sets the new rho_ess to
rho_pf * (1 + 1/10) = 11/10, not to rho_ess * (1 + 1/10) = 11 as the
claim states, and rho_ess strictly DECREASES (11/10 < 10). -/
theorem claim5_counterexample :
    (rhoUpdate true (1/10) 1 10 1 10).2 = 11/10 ∧
    (specRhoUpdate (1/10) 1 10).2 = 11 ∧
    (rhoUpdate true (1/10) 1 10 1 10).2 ≠ (specRhoUpdate (1/10) 1 10).2 ∧
    ¬((10 : ℚ) < (rhoUpdate true (1/10) 1 10 1 10).2) := by
  norm_num [rhoUpdate, specRhoUpdate]

/-- C5 (amended): when adaptive_penalty is enabled, at every iteration
and for every role BOTH new penalties are derived from the current rho_pf
value: rho_pf becomes rho_pf * (1 + gamma) (strictly larger when rho_pf
and gamma are positive) and rho_ess is set to that same value, so the two
penalties coincide after every adaptive update; rho_ess does not grow
geometrically from its own previous value. -/
theorem claim5_adaptive_update (gammaRho rhoPfParam rhoEssParam rhoPfCur rhoEssCur : ℚ)
    (h1 : 0 < rhoPfCur) (h2 : 0 < gammaRho) :
    rhoUpdate true gammaRho rhoPfParam rhoEssParam rhoPfCur rhoEssCur
      = (rhoPfCur * (1 + gammaRho), rhoPfCur * (1 + gammaRho)) ∧
    rhoPfCur < rhoPfCur * (1 + gammaRho) ∧
    (rhoUpdate true gammaRho rhoPfParam rhoEssParam rhoPfCur rhoEssCur).1
      = (rhoUpdate true gammaRho rhoPfParam rhoEssParam rhoPfCur rhoEssCur).2 := by
  refine ⟨rfl, ?_, rfl⟩
  nlinarith

/-- C5 witness: concrete positive penalty and factor. -/
theorem claim5_witness :
    (0 : ℚ) < 1 ∧ (0 : ℚ) < 1 ∧
    (rhoUpdate true 1 0 0 1 5 = (1 * (1 + 1), 1 * (1 + 1)) ∧
      (1 : ℚ) < 1 * (1 + 1) ∧
      (rhoUpdate true 1 0 0 1 5).1 = (rhoUpdate true 1 0 0 1 5).2) :=
  ⟨by norm_num, by norm_num,
   claim5_adaptive_update 1 0 0 1 5 (by norm_num) (by norm_num)⟩

/-- C6 counterexample: the TSO objective normalization and the interface
PF residual normalizations divide by the plain absolute reference, not by
max(abs(reference), 1): at reference 1/2 the code denominator is 1/2
while the claimed safeguard gives 1, and at reference 0 the code
denominator is 0 (a division by zero the claim says cannot occur). -/
theorem claim6_counterexample :
    tsoObjNormDenom (1/2) = 1/2 ∧
    pfResidualDenom (1/2) = 1/2 ∧
    specSafeguardDenom (1/2) = 1 ∧
    ((1 : ℚ)/2 ≠ 1) ∧
    pfResidualDenom 0 = 0 := by
  refine ⟨by norm_num [tsoObjNormDenom], by norm_num [pfResidualDenom], ?_,
    by norm_num, by norm_num [pfResidualDenom]⟩
  unfold specSafeguardDenom
  rw [abs_of_pos (by norm_num : (0 : ℚ) < 1/2)]
  exact max_eq_right (by norm_num)

/-- C6 (amended): only the DSO objective normalization uses the
max(abs(reference), 1) safeguard (its denominator is always at least 1);
the TSO objective normalization and the interface PF residual
normalizations divide by the plain absolute reference, which is zero for
a zero reference; the shared-ESS rating in the residual denominator is
replaced by 1 when zero, so the ESS residual denominator is never zero. -/
theorem claim6_normalization_safeguards (ref rating : ℚ) :
    1 ≤ dsoObjNormDenom rating ref ∧
    essResidualDenom rating ≠ 0 ∧
    essRatingUsed 0 = 1 ∧
    tsoObjNormDenom ref = |ref| ∧
    pfResidualDenom ref = |ref| := by
  refine ⟨le_max_right _ _, ?_, by simp [essRatingUsed], rfl, rfl⟩
  unfold essResidualDenom essRatingUsed
  by_cases h : rating = 0
  · rw [if_pos h]
    norm_num
  · rw [if_neg h]
    exact mul_ne_zero two_ne_zero h

/-- C7 counterexample: in the event order of one ADMM iteration the
snapshot of the consensus variables into the previous-iteration storage
occurs twice, not once, and the TSO solve (index 0) precedes the first
snapshot, so the snapshot does not precede every subproblem solve. -/
theorem claim7_counterexample :
    (admmIterationEvents true).count AdmmEvent.snapshot = 2 ∧
    List.indexOf AdmmEvent.solveTso (admmIterationEvents true)
      < List.indexOf AdmmEvent.snapshot (admmIterationEvents true) := by
  decide

/-- C7 (amended): within every ADMM iteration the snapshot-previous step
runs exactly twice, once at the start of the consensus update following
the TSO solve and once at the start of the consensus update following
the DSO solves; each solve therefore precedes its snapshot, and the
stationary test compares the current iterate against the values held just
before the most recent pull, not against the start of the iteration. -/
theorem claim7_snapshot_order (checkAfterTso : Bool) :
    (admmIterationEvents checkAfterTso).count AdmmEvent.snapshot = 2 ∧
    List.indexOf AdmmEvent.solveTso (admmIterationEvents checkAfterTso) = 0 ∧
    (admmIterationEvents checkAfterTso).filter
        (fun e => e == AdmmEvent.snapshot || e == AdmmEvent.solveTso
          || e == AdmmEvent.solveDso || e == AdmmEvent.convergenceCheck)
      = (if checkAfterTso then
          [AdmmEvent.solveTso, AdmmEvent.snapshot, AdmmEvent.convergenceCheck,
           AdmmEvent.solveDso, AdmmEvent.snapshot, AdmmEvent.convergenceCheck]
         else
          [AdmmEvent.solveTso, AdmmEvent.snapshot,
           AdmmEvent.solveDso, AdmmEvent.snapshot, AdmmEvent.convergenceCheck]) := by
  cases checkAfterTso
  · decide
  · decide

/-- C8: the right-hand side of the Benders cut appended by
_add_benders_cut, evaluated at the candidate solution it was built from,
reduces exactly to the upper bound: every deviation term vanishes, so the
constraint becomes alpha >= UB_k. -/
theorem claim8_cut_reduces_at_candidate (upperBound : ℚ) (numStorages numYears : ℕ)
    (sensS sensE : ℕ → ℕ → ℚ) (dayWeights : List ℚ) (sHat eHat : ℕ → ℕ → ℚ) :
    bendersCutRhs upperBound numStorages numYears sensS sensE dayWeights
      sHat eHat sHat eHat = upperBound := by
  unfold bendersCutRhs
  simp [sub_self]

/-- C9: every candidate handed to the operational layer has nonnegative
entries: the initial candidate is identically zero, and the candidate
extracted from a solved master problem stores absolute values of the
solver results, for yearly investments and total capacities alike. -/
theorem claim9_candidate_nonneg (rawInvS rawInvE rawRatedS rawRatedE : ℕ → ℕ → ℚ)
    (e y : ℕ) :
    0 ≤ getInitialCandidateSolution.investmentS e y ∧
    0 ≤ getInitialCandidateSolution.investmentE e y ∧
    0 ≤ getInitialCandidateSolution.totalCapacityS e y ∧
    0 ≤ getInitialCandidateSolution.totalCapacityE e y ∧
    0 ≤ (getCandidateSolution rawInvS rawInvE rawRatedS rawRatedE).investmentS e y ∧
    0 ≤ (getCandidateSolution rawInvS rawInvE rawRatedS rawRatedE).investmentE e y ∧
    0 ≤ (getCandidateSolution rawInvS rawInvE rawRatedS rawRatedE).totalCapacityS e y ∧
    0 ≤ (getCandidateSolution rawInvS rawInvE rawRatedS rawRatedE).totalCapacityE e y :=
  ⟨le_refl 0, le_refl 0, le_refl 0, le_refl 0,
   abs_nonneg _, abs_nonneg _, abs_nonneg _, abs_nonneg _⟩

/-- C10: if reading the network parameter file succeeds and the
relaxed_model flag in the file is true, the resulting parameters have
ess_relax and fl_relax true, regardless of the values in the file. -/
theorem claim10_relaxed_model_override (d : NetworkParamsData) (ps : NetworkParameters)
    (hOk : readNetworkParametersFromFile d = Except.ok ps)
    (hRelax : d.relaxedModel = true) :
    ps.essRelax = true ∧ ps.flRelax = true := by
  unfold readNetworkParametersFromFile at hOk
  by_cases h1 : d.objType = "COST"
  · simp only [h1, if_true, hRelax, if_pos, Except.ok.injEq] at hOk
    subst hOk
    exact ⟨rfl, rfl⟩
  · by_cases h2 : d.objType = "CONGESTION_MANAGEMENT"
    · have hsne : ("CONGESTION_MANAGEMENT" : String) ≠ "COST" := by decide
      simp only [h2, hsne, if_false, if_true, hRelax, if_pos, Except.ok.injEq] at hOk
      subst hOk
      exact ⟨rfl, rfl⟩
    · simp [h1, h2] at hOk

/-- C10 witness: a concrete file record with relaxed_model set and both
relaxation flags off; reading it succeeds and forces both flags on. -/
theorem claim10_witness :
    readNetworkParametersFromFile claim10Data = Except.ok claim10Params ∧
    claim10Data.relaxedModel = true ∧
    (claim10Params.essRelax = true ∧ claim10Params.flRelax = true) :=
  ⟨by simp [readNetworkParametersFromFile, claim10Data, claim10Params],
   rfl,
   claim10_relaxed_model_override claim10Data claim10Params
     (by simp [readNetworkParametersFromFile, claim10Data, claim10Params]) rfl⟩
